import Mathlib

/-!
Verification of `opsdroid/matchers.py`: decorator factories that attach
matcher descriptors to skill handler functions.

Python dictionaries are embedded as insertion-ordered association lists of
`String × PyVal`; a handler function object is embedded as a record carrying
an object identity and an optional `matchers` attribute (absent before the
first decoration, a list of descriptors afterwards).  Each decorator factory
is embedded as a Lean function returning the inner `matcher` closure as a
`Handler → Handler` map.
-/

namespace Opsdroid

/-- A Python value as stored inside a matcher descriptor: strings, booleans,
numbers (modelled as rationals), `None`, and nested dictionaries. -/
inductive PyVal where
  | str (s : String)
  | bool (b : Bool)
  | num (q : ℚ)
  | pynone
  | dict (entries : List (String × PyVal))

/-- A matcher descriptor is a Python dict: an insertion-ordered list of
key/value pairs. -/
abbrev Descriptor := List (String × PyVal)

/-- A handler function object.  `id` models Python object identity; `matchers`
models the dynamically attached `matchers` attribute, `none` when the
attribute is absent. -/
structure Handler where
  id : Nat
  matchers : Option (List Descriptor)

/-- The handler's matcher list, empty when the attribute is absent. -/
def Handler.matchersList (h : Handler) : List Descriptor := h.matchers.getD []

/-- Modelled from the spec: `add_skill_attributes` is imported from
`opsdroid/helper.py`, which is not part of this source tree.  Per spec §4.1
it idempotently guarantees the handler carries an ordered, mutable
matcher-list attribute (initialized empty if absent, left untouched if
already present) and returns the same handler object, not a copy. -/
def add_skill_attributes (func : Handler) : Handler :=
  match func.matchers with
  | none => { func with matchers := some [] }
  | some _ => func

/-- Modelled from the spec: `REGEX_PARSE_SCORE_FACTOR` is imported from
`opsdroid/const.py`, which is not part of this source tree.  The spec fixes
only its role (the module-wide default score factor used as fallback for
regex/parse descriptors), not its numeric value, so any fixed constant is
adequate here. -/
def REGEX_PARSE_SCORE_FACTOR : ℚ := 3 / 5

/-- Python truthiness-based defaulting `score_factor or REGEX_PARSE_SCORE_FACTOR`:
`None` and `0` are falsy and yield the default, any other number is kept. -/
def pyOrScore (score_factor : Option ℚ) (d : ℚ) : ℚ :=
  match score_factor with
  | none => d
  | some q => if q = 0 then d else q

/-- `match_event(event_type)`: the returned `matcher` closure. -/
def match_event (event_type : String) : Handler → Handler :=
  fun func =>
    let func := add_skill_attributes func
    { func with matchers := some (func.matchersList ++
        [[("event_type", PyVal.dict [("type", PyVal.str event_type)])]]) }

/-- `match_regex(regex, case_sensitive=True, matching_condition="match",
score_factor=None)`: the returned `matcher` closure.  The Python defaults are
supplied explicitly at call sites (`true`, `"match"`, `none`). -/
def match_regex (regex : String) (case_sensitive : Bool)
    (matching_condition : String) (score_factor : Option ℚ) :
    Handler → Handler :=
  fun func =>
    let func := add_skill_attributes func
    { func with matchers := some (func.matchersList ++
        [[("regex", PyVal.dict
            [("expression", PyVal.str regex),
             ("case_sensitive", PyVal.bool case_sensitive),
             ("matching_condition", PyVal.str matching_condition),
             ("score_factor",
              PyVal.num (pyOrScore score_factor REGEX_PARSE_SCORE_FACTOR))])]]) }

/-- `match_parse(format_str, case_sensitive=True, matching_condition="match",
score_factor=None)`: the returned `matcher` closure. -/
def match_parse (format_str : String) (case_sensitive : Bool)
    (matching_condition : String) (score_factor : Option ℚ) :
    Handler → Handler :=
  fun func =>
    let func := add_skill_attributes func
    { func with matchers := some (func.matchersList ++
        [[("parse_format", PyVal.dict
            [("expression", PyVal.str format_str),
             ("case_sensitive", PyVal.bool case_sensitive),
             ("matching_condition", PyVal.str matching_condition),
             ("score_factor",
              PyVal.num (pyOrScore score_factor REGEX_PARSE_SCORE_FACTOR))])]]) }

/-- `match_dialogflow_action(action)`: the returned `matcher` closure. -/
def match_dialogflow_action (action : String) : Handler → Handler :=
  fun func =>
    let func := add_skill_attributes func
    { func with matchers := some (func.matchersList ++
        [[("dialogflow_action", PyVal.str action)]]) }

/-- `match_dialogflow_intent(intent)`: the returned `matcher` closure. -/
def match_dialogflow_intent (intent : String) : Handler → Handler :=
  fun func =>
    let func := add_skill_attributes func
    { func with matchers := some (func.matchersList ++
        [[("dialogflow_intent", PyVal.str intent)]]) }

/-- `match_luisai_intent(intent)`: the returned `matcher` closure. -/
def match_luisai_intent (intent : String) : Handler → Handler :=
  fun func =>
    let func := add_skill_attributes func
    { func with matchers := some (func.matchersList ++
        [[("luisai_intent", PyVal.str intent)]]) }

/-- `match_rasanlu(intent)`: the returned `matcher` closure. -/
def match_rasanlu (intent : String) : Handler → Handler :=
  fun func =>
    let func := add_skill_attributes func
    { func with matchers := some (func.matchersList ++
        [[("rasanlu_intent", PyVal.str intent)]]) }

/-- `match_sapcai(intent)`: the returned `matcher` closure. -/
def match_sapcai (intent : String) : Handler → Handler :=
  fun func =>
    let func := add_skill_attributes func
    { func with matchers := some (func.matchersList ++
        [[("sapcai_intent", PyVal.str intent)]]) }

/-- The deprecation warning text logged by `match_recastai` (the doubled
space before "will" is in the source). -/
def recastai_warning : String :=
  "Recast.AI is now called SAP Conversational AI, this matcher  will stop working in the future. Use match_sapcai instead."

/-- `match_recastai(intent)`: the factory logs one deprecation warning via
`_LOGGER.warning` before returning the `matcher` closure.  The embedding
returns the list of warnings emitted by the factory call paired with the
closure. -/
def match_recastai (intent : String) : List String × (Handler → Handler) :=
  ([recastai_warning],
   fun func =>
     let func := add_skill_attributes func
     { func with matchers := some (func.matchersList ++
         [[("sapcai_intent", PyVal.str intent)]]) })

/-- `match_watson(intent)`: the returned `matcher` closure. -/
def match_watson (intent : String) : Handler → Handler :=
  fun func =>
    let func := add_skill_attributes func
    { func with matchers := some (func.matchersList ++
        [[("watson_intent", PyVal.str intent)]]) }

/-- `match_witai(intent)`: the returned `matcher` closure. -/
def match_witai (intent : String) : Handler → Handler :=
  fun func =>
    let func := add_skill_attributes func
    { func with matchers := some (func.matchersList ++
        [[("witai_intent", PyVal.str intent)]]) }

/-- `match_crontab(crontab, timezone=None)`: the returned `matcher` closure.
The `timezone` key is always written; omitting the argument stores `None`. -/
def match_crontab (crontab : String) (timezone : Option String) :
    Handler → Handler :=
  fun func =>
    let func := add_skill_attributes func
    { func with matchers := some (func.matchersList ++
        [[("crontab", PyVal.str crontab),
          ("timezone",
           match timezone with
           | none => PyVal.pynone
           | some tz => PyVal.str tz)]]) }

/-- `match_webhook(webhook)`: the returned `matcher` closure. -/
def match_webhook (webhook : String) : Handler → Handler :=
  fun func =>
    let func := add_skill_attributes func
    { func with matchers := some (func.matchersList ++
        [[("webhook", PyVal.str webhook)]]) }

/-- The inner `matcher` closure of `match_always`. -/
def match_always_matcher : Handler → Handler :=
  fun func =>
    let func := add_skill_attributes func
    { func with matchers := some (func.matchersList ++
        [[("always", PyVal.bool true)]]) }

/-- An argument passed to `match_always`: either a callable handler or some
non-callable Python value (`None` being the default). -/
inductive PyValue where
  | handler (h : Handler)
  | pynone
  | str (s : String)
  | int (n : Int)

/-- Python's `callable`: among the modelled values only handlers are callable. -/
def callable : PyValue → Bool
  | .handler _ => true
  | _ => false

/-- What `match_always` returns: either the already-decorated handler (bare
`@match_always` form) or the `matcher` decorator (factory form). -/
inductive AlwaysResult where
  | decorated (h : Handler)
  | decorator (d : Handler → Handler)

/-- `match_always(func=None)`: `if callable(func): return matcher(func)`;
otherwise `return matcher`.  Only `PyValue.handler` is callable. -/
def match_always (func : PyValue) : AlwaysResult :=
  match func with
  | .handler f => AlwaysResult.decorated (match_always_matcher f)
  | _ => AlwaysResult.decorator match_always_matcher

/-- One application of a module decorator, identified by its kind and the
arguments passed to the factory. -/
inductive DecoratorCall where
  | event (event_type : String)
  | regex (regex : String) (case_sensitive : Bool)
      (matching_condition : String) (score_factor : Option ℚ)
  | parse (format_str : String) (case_sensitive : Bool)
      (matching_condition : String) (score_factor : Option ℚ)
  | dialogflowAction (action : String)
  | dialogflowIntent (intent : String)
  | luisai (intent : String)
  | rasanlu (intent : String)
  | recastai (intent : String)
  | sapcai (intent : String)
  | watson (intent : String)
  | witai (intent : String)
  | crontab (crontab : String) (timezone : Option String)
  | webhook (webhook : String)
  | always

/-- Dispatch a decorator call to the corresponding matcher closure. -/
def applyDecorator : DecoratorCall → Handler → Handler
  | .event t => match_event t
  | .regex r cs mc sf => match_regex r cs mc sf
  | .parse f cs mc sf => match_parse f cs mc sf
  | .dialogflowAction a => match_dialogflow_action a
  | .dialogflowIntent i => match_dialogflow_intent i
  | .luisai i => match_luisai_intent i
  | .rasanlu i => match_rasanlu i
  | .recastai i => (match_recastai i).2
  | .sapcai i => match_sapcai i
  | .watson i => match_watson i
  | .witai i => match_witai i
  | .crontab c tz => match_crontab c tz
  | .webhook w => match_webhook w
  | .always => match_always_matcher

/-- The descriptor a decorator call appends, as a function of the factory
arguments alone (the handler plays no part). -/
def descriptorOf : DecoratorCall → Descriptor
  | .event t => [("event_type", PyVal.dict [("type", PyVal.str t)])]
  | .regex r cs mc sf =>
      [("regex", PyVal.dict
          [("expression", PyVal.str r),
           ("case_sensitive", PyVal.bool cs),
           ("matching_condition", PyVal.str mc),
           ("score_factor",
            PyVal.num (pyOrScore sf REGEX_PARSE_SCORE_FACTOR))])]
  | .parse f cs mc sf =>
      [("parse_format", PyVal.dict
          [("expression", PyVal.str f),
           ("case_sensitive", PyVal.bool cs),
           ("matching_condition", PyVal.str mc),
           ("score_factor",
            PyVal.num (pyOrScore sf REGEX_PARSE_SCORE_FACTOR))])]
  | .dialogflowAction a => [("dialogflow_action", PyVal.str a)]
  | .dialogflowIntent i => [("dialogflow_intent", PyVal.str i)]
  | .luisai i => [("luisai_intent", PyVal.str i)]
  | .rasanlu i => [("rasanlu_intent", PyVal.str i)]
  | .recastai i => [("sapcai_intent", PyVal.str i)]
  | .sapcai i => [("sapcai_intent", PyVal.str i)]
  | .watson i => [("watson_intent", PyVal.str i)]
  | .witai i => [("witai_intent", PyVal.str i)]
  | .crontab c tz =>
      [("crontab", PyVal.str c),
       ("timezone",
        match tz with
        | none => PyVal.pynone
        | some s => PyVal.str s)]
  | .webhook w => [("webhook", PyVal.str w)]
  | .always => [("always", PyVal.bool true)]

/-- Apply a sequence of decorator calls to a handler, first call first. -/
def applyAll (cs : List DecoratorCall) (h : Handler) : Handler :=
  cs.foldl (fun h c => applyDecorator c h) h

lemma applyDecorator_eq (c : DecoratorCall) (h : Handler) :
    applyDecorator c h =
      { id := h.id, matchers := some (h.matchersList ++ [descriptorOf c]) } := by
  cases c <;> cases hm : h.matchers <;>
    simp [applyDecorator, descriptorOf, match_event, match_regex, match_parse,
      match_dialogflow_action, match_dialogflow_intent, match_luisai_intent,
      match_rasanlu, match_recastai, match_sapcai, match_watson, match_witai,
      match_crontab, match_webhook, match_always_matcher,
      add_skill_attributes, Handler.matchersList, hm]

lemma applyAll_matchersList (cs : List DecoratorCall) (h : Handler) :
    (applyAll cs h).matchersList = h.matchersList ++ cs.map descriptorOf := by
  induction cs generalizing h with
  | nil => simp [applyAll]
  | cons c cs ih =>
      have : applyAll (c :: cs) h = applyAll cs (applyDecorator c h) := rfl
      rw [this, ih, applyDecorator_eq]
      simp [Handler.matchersList]

/-- C1: for every decorator kind in the module and every handler, applying the
decorator returns the same handler object (identity preserved) and appends
exactly one descriptor to the handler's matcher list, leaving the list
otherwise as it was. -/
theorem decorator_identity_preserving_appends_one
    (c : DecoratorCall) (h : Handler) :
    (applyDecorator c h).id = h.id ∧
    ∃ d : Descriptor,
      (applyDecorator c h).matchersList = h.matchersList ++ [d] := by
  rw [applyDecorator_eq]
  exact ⟨rfl, descriptorOf c, rfl⟩

/-- C2: stacking any sequence of N decorator calls on one fresh handler yields
a matcher list of length exactly N whose descriptors appear in application
order; in particular `match_crontab` followed by `match_webhook` yields a
two-element list holding the crontab descriptor then the webhook descriptor. -/
theorem stacking_preserves_count_and_order
    (cs : List DecoratorCall) (h : Handler) (hm : h.matchers = none) :
    (applyAll cs h).matchersList = cs.map descriptorOf ∧
    (applyAll cs h).matchersList.length = cs.length ∧
    ∀ (c : String) (tz : Option String) (w : String),
      (applyAll [DecoratorCall.crontab c tz, DecoratorCall.webhook w]
          h).matchersList =
        [descriptorOf (DecoratorCall.crontab c tz),
         descriptorOf (DecoratorCall.webhook w)] := by
  have hl : h.matchersList = [] := by simp [Handler.matchersList, hm]
  refine ⟨?_, ?_, ?_⟩
  · rw [applyAll_matchersList, hl]; simp
  · rw [applyAll_matchersList, hl]; simp
  · intro c tz w
    rw [applyAll_matchersList, hl]
    simp

theorem stacking_preserves_count_and_order_witness :
    ({ id := 0, matchers := none } : Handler).matchers = none ∧
    (applyAll [DecoratorCall.crontab "* * * * *" none,
               DecoratorCall.webhook "deploy"]
        { id := 0, matchers := none }).matchersList =
      [[("crontab", PyVal.str "* * * * *"), ("timezone", PyVal.pynone)],
       [("webhook", PyVal.str "deploy")]] :=
  ⟨rfl,
   ((stacking_preserves_count_and_order
        [DecoratorCall.crontab "* * * * *" none,
         DecoratorCall.webhook "deploy"]
        { id := 0, matchers := none } rfl).1).trans rfl⟩

/-- C3: for `match_regex` and `match_parse` with only the expression supplied
(Python defaults `case_sensitive=True`, `matching_condition="match"`,
`score_factor=None`), the attached descriptor stores `case_sensitive=True`,
`matching_condition="match"` and the default `REGEX_PARSE_SCORE_FACTOR`;
a non-zero `score_factor` is stored as given; a falsy `score_factor`
(`0`, like `None`) is replaced by the default. -/
theorem regex_parse_score_factor_defaulting
    (r : String) (h : Handler) (q : ℚ) (hq : q ≠ 0) :
    (match_regex r true "match" none h).matchersList =
      h.matchersList ++
        [[("regex", PyVal.dict
            [("expression", PyVal.str r),
             ("case_sensitive", PyVal.bool true),
             ("matching_condition", PyVal.str "match"),
             ("score_factor", PyVal.num REGEX_PARSE_SCORE_FACTOR)])]] ∧
    (match_regex r true "match" (some q) h).matchersList =
      h.matchersList ++
        [[("regex", PyVal.dict
            [("expression", PyVal.str r),
             ("case_sensitive", PyVal.bool true),
             ("matching_condition", PyVal.str "match"),
             ("score_factor", PyVal.num q)])]] ∧
    (match_regex r true "match" (some 0) h).matchersList =
      h.matchersList ++
        [[("regex", PyVal.dict
            [("expression", PyVal.str r),
             ("case_sensitive", PyVal.bool true),
             ("matching_condition", PyVal.str "match"),
             ("score_factor", PyVal.num REGEX_PARSE_SCORE_FACTOR)])]] ∧
    (match_parse r true "match" none h).matchersList =
      h.matchersList ++
        [[("parse_format", PyVal.dict
            [("expression", PyVal.str r),
             ("case_sensitive", PyVal.bool true),
             ("matching_condition", PyVal.str "match"),
             ("score_factor", PyVal.num REGEX_PARSE_SCORE_FACTOR)])]] ∧
    (match_parse r true "match" (some q) h).matchersList =
      h.matchersList ++
        [[("parse_format", PyVal.dict
            [("expression", PyVal.str r),
             ("case_sensitive", PyVal.bool true),
             ("matching_condition", PyVal.str "match"),
             ("score_factor", PyVal.num q)])]] ∧
    (match_parse r true "match" (some 0) h).matchersList =
      h.matchersList ++
        [[("parse_format", PyVal.dict
            [("expression", PyVal.str r),
             ("case_sensitive", PyVal.bool true),
             ("matching_condition", PyVal.str "match"),
             ("score_factor", PyVal.num REGEX_PARSE_SCORE_FACTOR)])]] := by
  cases hm : h.matchers <;>
    simp [match_regex, match_parse, add_skill_attributes,
      Handler.matchersList, pyOrScore, hm, hq]

theorem regex_parse_score_factor_defaulting_witness :
    ((5 : ℚ) / 2 ≠ 0) ∧
    (match_regex "hi" true "match" (some ((5 : ℚ) / 2))
        { id := 0, matchers := none }).matchersList =
      [[("regex", PyVal.dict
          [("expression", PyVal.str "hi"),
           ("case_sensitive", PyVal.bool true),
           ("matching_condition", PyVal.str "match"),
           ("score_factor", PyVal.num ((5 : ℚ) / 2))])]] :=
  ⟨by norm_num,
   ((regex_parse_score_factor_defaulting "hi" { id := 0, matchers := none }
        ((5 : ℚ) / 2) (by norm_num)).2.1).trans rfl⟩

/-- C4: `match_always` used bare (handed the callable directly) and
`match_always` used as a factory (no callable handed in, yielding the
`matcher` decorator) produce equal results: in both forms the handler comes
back identity-preserved carrying one additional `{always: True}` descriptor. -/
theorem match_always_bare_and_factory_agree (h : Handler) :
    match_always (PyValue.handler h) =
      AlwaysResult.decorated (match_always_matcher h) ∧
    match_always PyValue.pynone =
      AlwaysResult.decorator match_always_matcher ∧
    (match_always_matcher h).id = h.id ∧
    (match_always_matcher h).matchersList =
      h.matchersList ++ [[("always", PyVal.bool true)]] := by
  have heq := applyDecorator_eq DecoratorCall.always h
  simp only [applyDecorator, descriptorOf] at heq
  refine ⟨rfl, rfl, ?_, ?_⟩
  · rw [heq]
  · rw [heq]; simp [Handler.matchersList]

/-- C5: for every intent string, the descriptor builder returned by
`match_recastai` is extensionally equal to the one returned by
`match_sapcai`: both attach the same `sapcai_intent` descriptor with the
same intent value. -/
theorem recastai_sapcai_alias_equivalence (intent : String) (h : Handler) :
    (match_recastai intent).2 h = match_sapcai intent h ∧
    (match_sapcai intent h).matchersList =
      h.matchersList ++ [[("sapcai_intent", PyVal.str intent)]] := by
  refine ⟨rfl, ?_⟩
  have := applyDecorator_eq (DecoratorCall.sapcai intent) h
  simp only [applyDecorator, descriptorOf] at this
  rw [this]
  simp [Handler.matchersList]

/-- C6: `match_recastai` emits its deprecation warning exactly once per
decoration call — the warning is produced by the factory invocation itself
(decoration time), independently of and before the handler is touched —
while the returned `matcher` attaches exactly the descriptor that
`match_sapcai` attaches. -/
theorem recastai_warns_once_per_decoration (intent : String) (h : Handler) :
    (match_recastai intent).1.length = 1 ∧
    (match_recastai intent).1 = [recastai_warning] ∧
    (match_recastai intent).2 h = match_sapcai intent h :=
  ⟨rfl, rfl, rfl⟩

/-- C7 as stated is false: the descriptor attached by `match_event e` does
not carry the string `e` itself as the `event_type` value; at `e = "message"`
on a fresh handler the attached value is the nested mapping
`{"type": "message"}`, not the string `"message"`. -/
theorem match_event_parameter_not_bare_string :
    (match_event "message" { id := 0, matchers := none }).matchersList ≠
      [[("event_type", PyVal.str "message")]] := by
  simp [match_event, add_skill_attributes, Handler.matchersList]

/-- C7 amended: for every event-type string `e`, `match_event e` attaches a
descriptor of kind `event_type` whose parameter is the nested mapping
`{"type": e}` carrying the string `e` under the key `"type"`. -/
theorem match_event_attaches_nested_type_mapping
    (e : String) (h : Handler) :
    (match_event e h).matchersList =
      h.matchersList ++
        [[("event_type", PyVal.dict [("type", PyVal.str e)])]] := by
  have := applyDecorator_eq (DecoratorCall.event e) h
  simp only [applyDecorator, descriptorOf] at this
  rw [this]
  simp [Handler.matchersList]

/-- C8: `match_crontab c` with the timezone omitted attaches a descriptor of
kind `crontab` carrying the cron expression `c` and a timezone entry holding
no value (`None`); `match_webhook "deploy"` attaches `{webhook: "deploy"}`
with no other keys. -/
theorem crontab_webhook_descriptor_shapes (c : String) (h : Handler) :
    (match_crontab c none h).matchersList =
      h.matchersList ++
        [[("crontab", PyVal.str c), ("timezone", PyVal.pynone)]] ∧
    (match_webhook "deploy" h).matchersList =
      h.matchersList ++ [[("webhook", PyVal.str "deploy")]] := by
  constructor
  · have h1 := applyDecorator_eq (DecoratorCall.crontab c none) h
    simp only [applyDecorator, descriptorOf] at h1
    rw [h1]; simp [Handler.matchersList]
  · have h2 := applyDecorator_eq (DecoratorCall.webhook "deploy") h
    simp only [applyDecorator, descriptorOf] at h2
    rw [h2]; simp [Handler.matchersList]

/-- C9: for every non-callable argument `x`, `match_always x` raises no
error, attaches no descriptor, and returns the inner `matcher` decorator
with `x` discarded — exactly the result of `match_always` called with its
default `None`. -/
theorem match_always_noncallable_discards_argument
    (x : PyValue) (hx : callable x = false) :
    match_always x = AlwaysResult.decorator match_always_matcher ∧
    match_always x = match_always PyValue.pynone := by
  cases x with
  | handler f => simp [callable] at hx
  | pynone => exact ⟨rfl, rfl⟩
  | str s => exact ⟨rfl, rfl⟩
  | int n => exact ⟨rfl, rfl⟩

theorem match_always_noncallable_discards_argument_witness :
    callable (PyValue.str "42") = false ∧
    match_always (PyValue.str "42") =
      AlwaysResult.decorator match_always_matcher :=
  ⟨rfl, (match_always_noncallable_discards_argument (PyValue.str "42")
          rfl).1⟩

/-- C10: every decorator application is append-only and argument-determined:
the descriptors already on the handler are left exactly as they were, and the
single appended descriptor is `descriptorOf c`, a function of the factory
arguments alone, independent of the handler and of the descriptors already
attached. -/
theorem decorator_append_only_argument_determined
    (c : DecoratorCall) (h : Handler) :
    (applyDecorator c h).matchersList =
      h.matchersList ++ [descriptorOf c] := by
  rw [applyDecorator_eq]
  simp [Handler.matchersList]

end Opsdroid
